import Mathlib

/-!
Shallow embedding of the leaguepass-ranker scoring and data-fusion engine
(src/ranker.py, src/odds.py, src/config.py). Python floats are modelled as
rationals, Python dicts as insertion-ordered association lists, and each
external effect (HTTP fetch, file read, timezone database) as an explicit
input describing its outcome. Functions whose Python bodies are fully
wrapped in try/except are total; the odds adapter, whose body is not,
returns Except so that a raised exception is visible in the type.
-/

namespace LeaguePass

/-- Python int(x) for a float x: truncation toward zero. -/
def pyInt (q : ℚ) : ℤ := if 0 ≤ q then ⌊q⌋ else -⌊-q⌋

/-- Python round(x) to an integer: round half to even. -/
def pyRoundInt (q : ℚ) : ℤ :=
  let f := ⌊q⌋
  let r := q - f
  if r < 1/2 then f
  else if 1/2 < r then f + 1
  else if f % 2 = 0 then f else f + 1

/-- Python round(x, 1): one decimal place, half to even. -/
def pyRound1 (q : ℚ) : ℚ := (pyRoundInt (10 * q) : ℚ) / 10

/-- Python substring test: needle in hay. -/
def strContains (hay needle : String) : Bool :=
  (List.range (hay.length + 1)).any (fun i => needle.data.isPrefixOf (hay.data.drop i))

/-- Python str.lower restricted to the ASCII range the scraped statuses use. -/
def strLower (s : String) : String := String.mk (s.data.map Char.toLower)

/-- Python dict lookup d.get(k): first matching key of the association list. -/
def pyGet {β : Type} : List (String × β) → String → Option β
  | [], _ => none
  | kv :: rest, k => if kv.1 = k then some kv.2 else pyGet rest k

/-- Python d[k] = v on a dict already containing k, plus append when absent. -/
def dictSet {β : Type} (m : List (String × β)) (k : String) (v : β) : List (String × β) :=
  if (pyGet m k).isSome then m.map (fun kv => if kv.1 = k then (k, v) else kv)
  else m ++ [(k, v)]

/-- Outcome of one HTTP fetch: the request raised, or a response arrived with a
status code and either a payload of the expected shape or a body whose parse fails. -/
inductive Outcome (α : Type) where
  | timeout : Outcome α
  | resp (status : Nat) (body : Option α) : Outcome α

/-- A Python exception kind that can escape the odds adapter. -/
inductive PyError where
  | requestsError : PyError
  | jsonDecodeError : PyError
  | keyError (k : String) : PyError
deriving DecidableEq, Repr

/-- TEAM_MAP of ranker.py: full franchise name to canonical abbreviation. -/
def TEAM_MAP : List (String × String) :=
  [("Atlanta Hawks", "ATL"), ("Boston Celtics", "BOS"), ("Brooklyn Nets", "BKN"),
   ("Charlotte Hornets", "CHA"), ("Chicago Bulls", "CHI"), ("Cleveland Cavaliers", "CLE"),
   ("Dallas Mavericks", "DAL"), ("Denver Nuggets", "DEN"), ("Detroit Pistons", "DET"),
   ("Golden State Warriors", "GSW"), ("Houston Rockets", "HOU"), ("Indiana Pacers", "IND"),
   ("Los Angeles Clippers", "LAC"), ("Los Angeles Lakers", "LAL"), ("Memphis Grizzlies", "MEM"),
   ("Miami Heat", "MIA"), ("Milwaukee Bucks", "MIL"), ("Minnesota Timberwolves", "MIN"),
   ("New Orleans Pelicans", "NOP"), ("New York Knicks", "NYK"), ("Oklahoma City Thunder", "OKC"),
   ("Orlando Magic", "ORL"), ("Philadelphia 76ers", "PHI"), ("Phoenix Suns", "PHX"),
   ("Portland Trail Blazers", "POR"), ("Sacramento Kings", "SAC"), ("San Antonio Spurs", "SAS"),
   ("Toronto Raptors", "TOR"), ("Utah Jazz", "UTA"), ("Washington Wizards", "WAS")]

/-- TEAM_NAME_MAP of config.py: the same thirty pairs as TEAM_MAP. -/
def TEAM_NAME_MAP : List (String × String) := TEAM_MAP

/-- PlayerRecord: name and fantasy-point value. -/
structure Player where
  name : String
  fp : ℚ
deriving DecidableEq, Repr

abbrev Rosters := List (String × List Player)

/-- One row of stats.csv as pandas delivers it to load_players; a None field
means float() on that cell raises (missing column or non-numeric value). -/
structure StatRow where
  player : String
  team : String
  tm : String
  pts : Option ℚ
  trb : Option ℚ
  ast : Option ℚ
  stl : Option ℚ
  blk : Option ℚ
  tov : Option ℚ

/-- stats.csv as a table: column-presence flags plus rows. -/
structure StatTable where
  hasPlayerCol : Bool
  hasTeamCol : Bool
  hasTmCol : Bool
  hasTOVCol : Bool
  rows : List StatRow

/-- BREF_ABBR.get(raw_team, raw_team) of load_players. -/
def brefRemap (raw : String) : String :=
  match pyGet [("BRK", "BKN"), ("CHO", "CHA"), ("PHO", "PHX"), ("TOT", "SKIP")] raw with
  | some t => t
  | none => raw

/-- The str of the Player cell cut at the first backslash, as the split in load_players reads it. -/
def nameBeforeBackslash (s : String) : String := String.mk (s.data.takeWhile (· ≠ '\\'))

/-- Append a player to rosters[team], creating the team entry on first use. -/
def rosterAppend (m : Rosters) (k : String) (p : Player) : Rosters :=
  if (pyGet m k).isSome then m.map (fun kv => if kv.1 = k then (kv.1, kv.2 ++ [p]) else kv)
  else m ++ [(k, [p])]

/-- Stable descending insertion by fp, matching Python list.sort reverse=True. -/
def insertFpDesc (p : Player) : List Player → List Player
  | [] => [p]
  | q :: qs => if q.fp ≤ p.fp then p :: q :: qs else q :: insertFpDesc p qs

/-- Stable descending sort by fp. -/
def sortFpDesc : List Player → List Player
  | [] => []
  | p :: ps => insertFpDesc p (sortFpDesc ps)

/-- load_players of ranker.py. A missing stats.csv, a failing read_csv, or an
absent Player column all yield the empty roster map; a row whose stat cells do
not parse is skipped; rows remapped to the traded sentinel are dropped. -/
def load_players (csv : Option StatTable) : Rosters :=
  match csv with
  | none => []
  | some t =>
    if ¬ t.hasPlayerCol then [] else
    let rows := t.rows.filter (fun r => r.player ≠ "Player")
    let rosters := rows.foldl (fun acc r =>
      let raw_team := if t.hasTeamCol then r.team else if t.hasTmCol then r.tm else "SKIP"
      let team := brefRemap raw_team
      if team = "SKIP" then acc else
      match r.pts, r.trb, r.ast, r.stl, r.blk with
      | some pts, some trb, some ast, some stl, some blk =>
        let tovVal := if t.hasTOVCol then r.tov else some 0
        match tovVal with
        | none => acc
        | some tov =>
          let fp := pts + (12/10) * trb + (15/10) * ast + 3 * stl + 3 * blk - tov
          rosterAppend acc team ⟨nameBeforeBackslash r.player, pyRound1 fp⟩
      | _, _, _, _, _ => acc) []
    rosters.map (fun kv => (kv.1, sortFpDesc kv.2))

/-- TeamStats record stored by load_team_stats. -/
structure TeamInfo where
  pace : ℚ
  net : ℚ
  ortg : ℚ
  wins : ℚ
deriving DecidableEq, Repr

/-- Per-team defaults of load_team_stats: league-average team for every
canonical abbreviation. -/
def team_defaults : List (String × TeamInfo) :=
  TEAM_MAP.map (fun kv => (kv.2, ⟨100, 0, 115, 1/2⟩))

/-- One row of team_stats.csv; a None field means float() on it raises. -/
structure TeamRow where
  team : String
  w : Option ℚ
  l : Option ℚ
  pace : Option ℚ
  nrtg : Option ℚ
  ortg : Option ℚ

/-- team_stats.csv as a table. -/
structure TeamTable where
  hasTeamCol : Bool
  rows : List TeamRow

/-- The str of the Team cell with every asterisk removed. -/
def stripAsterisks (s : String) : String := String.mk (s.data.filter (· ≠ '*'))

/-- load_team_stats of ranker.py. A missing file or failing parse returns the
defaults; a row whose numeric cells fail float() keeps the default for that team. -/
def load_team_stats (csv : Option TeamTable) : List (String × TeamInfo) :=
  match csv with
  | none => team_defaults
  | some t =>
    if ¬ t.hasTeamCol then team_defaults else
    let rows := t.rows.filter (fun r => r.team ≠ "League Average")
    rows.foldl (fun acc r =>
      let full_name := stripAsterisks r.team
      match pyGet TEAM_MAP full_name with
      | none => acc
      | some abbr =>
        match r.w, r.l, r.pace, r.nrtg, r.ortg with
        | some w, some l, some pace, some nrtg, some ortg =>
          let win_pct := if 0 < w + l then w / (w + l) else 1/2
          dictSet acc abbr ⟨pace, nrtg, ortg, win_pct⟩
        | _, _, _, _, _ => acc) team_defaults

/-- One row of a scraped injury table: player name plus the text of each
possible status column. -/
structure InjRow where
  player : String
  injuryStatus : String
  status : String

/-- One table from pd.read_html on injuries.html. -/
structure InjTable where
  hasPlayerCol : Bool
  hasInjuryStatusCol : Bool
  hasStatusCol : Bool
  rows : List InjRow

/-- Python set.add on a list kept duplicate-free. -/
def setAdd (l : List String) (k : String) : List String :=
  if l.contains k then l else l ++ [k]

/-- load_injuries of ranker.py: names whose status text contains out or
doubtful, case-insensitively; a missing or unparseable file yields the empty set. -/
def load_injuries (html : Option (List InjTable)) : List String :=
  match html with
  | none => []
  | some dfs =>
    dfs.foldl (fun acc t =>
      if ¬ t.hasPlayerCol then acc else
      if ¬ (t.hasInjuryStatusCol ∨ t.hasStatusCol) then acc else
      t.rows.foldl (fun acc2 r =>
        let sv := if t.hasInjuryStatusCol then r.injuryStatus else r.status
        let svl := strLower sv
        if strContains svl "out" ∨ strContains svl "doubtful" then setAdd acc2 r.player
        else acc2) acc) []

/-- A national broadcaster entry in the schedule JSON. -/
structure Broadcaster where
  broadcasterDisplay : String

/-- One game of the schedule JSON. -/
structure RawGame where
  homeTricode : String
  awayTricode : String
  homeId : Nat
  awayId : Nat
  gameStatusText : Option String
  national : List Broadcaster

/-- One gameDates entry of the schedule JSON. -/
structure GameDateEntry where
  gameDate : String
  games : List RawGame

/-- One row of the games DataFrame built by get_schedule_from_cdn. -/
structure GameRow where
  home : String
  away : String
  home_id : Nat
  away_id : Nat
  time : String
  tv : String
deriving DecidableEq, Repr

/-- get_schedule_from_cdn of ranker.py. dateFmt is the result of
strptime/strftime on the requested date (none when strptime raises); any
failure path of the Python body is caught and returns the empty frame. -/
def get_schedule_from_cdn (fetch : Outcome (List GameDateEntry)) (dateFmt : Option String) :
    List GameRow :=
  match fetch with
  | .timeout => []
  | .resp _ none => []
  | .resp _ (some gameDates) =>
    match dateFmt with
    | none => []
    | some target_fmt =>
      match gameDates.find? (fun d => strContains d.gameDate target_fmt) with
      | none => []
      | some d =>
        d.games.map (fun g =>
          let nat_tv := match g.national with
            | [] => ""
            | b :: _ => b.broadcasterDisplay
          ⟨g.homeTricode, g.awayTricode, g.homeId, g.awayId, g.gameStatusText.getD "", nat_tv⟩)

/-- One outcome entry of the odds payload; name is None when the key is absent
(so that the subscript raises), point mirrors outcome.get with default. -/
structure OddsEntry where
  name : Option String
  point : Option ℚ

/-- One market of an odds bookmaker. -/
structure Market where
  outcomes : List OddsEntry

/-- One bookmaker of an odds game. -/
structure Bookmaker where
  markets : List Market

/-- One game of the odds payload. -/
structure OddsGame where
  bookmakers : List Bookmaker

/-- The inner outcome loop of get_betting_spreads; a missing name key raises. -/
def processOutcomes (dict : List (String × ℚ)) :
    List OddsEntry → Except PyError (List (String × ℚ))
  | [] => .ok dict
  | o :: os =>
    match o.name with
    | none => .error (.keyError "name")
    | some team_name =>
      let spread := o.point.getD 0
      let dict2 := match pyGet TEAM_NAME_MAP team_name with
        | some abbr => dictSet dict abbr spread
        | none => dict
      processOutcomes dict2 os

/-- The game loop of get_betting_spreads: first bookmaker, first market. -/
def processOddsGames (dict : List (String × ℚ)) :
    List OddsGame → Except PyError (List (String × ℚ))
  | [] => .ok dict
  | g :: gs =>
    match g.bookmakers with
    | [] => processOddsGames dict gs
    | b :: _ =>
      match b.markets with
      | [] => processOddsGames dict gs
      | mk :: _ =>
        match processOutcomes dict mk.outcomes with
        | .error e => .error e
        | .ok dict2 => processOddsGames dict2 gs

/-- get_betting_spreads of odds.py. The placeholder key and a non-200 status
return the empty dict, but the request itself, json(), and a missing name key
are not guarded by any try/except and raise. -/
def get_betting_spreads (apiKey : String) (fetch : Outcome (List OddsGame)) :
    Except PyError (List (String × ℚ)) :=
  if strContains apiKey "PASTE_YOUR" then .ok [] else
  match fetch with
  | .timeout => .error .requestsError
  | .resp status body =>
    if status ≠ 200 then .ok [] else
    match body with
    | none => .error .jsonDecodeError
    | some data => processOddsGames [] data

/-- The import guard at the top of ranker.py: when importing odds fails the
stub returning the empty dict is used instead. -/
def ranker_spreads (oddsImported : Bool) (apiKey : String) (fetch : Outcome (List OddsGame)) :
    Except PyError (List (String × ℚ)) :=
  if oddsImported then get_betting_spreads apiKey fetch else .ok []

/-- The maximal run of decimal digits at the head, and the rest. -/
def takeDigits (cs : List Char) : List Char × List Char :=
  (cs.takeWhile Char.isDigit, cs.dropWhile Char.isDigit)

/-- The maximal run of whitespace at the head, and the rest. -/
def takeSpaces (cs : List Char) : List Char × List Char :=
  (cs.takeWhile Char.isWhitespace, cs.dropWhile Char.isWhitespace)

/-- The integer named by a digit run, as Python int() reads a match group. -/
def digitsVal (ds : List Char) : Nat :=
  ds.foldl (fun a c => 10 * a + (c.toNat - '0'.toNat)) 0

/-- One match of the time regex: the two digit groups and the matched
meridiem text. -/
structure TimeMatch where
  h : Nat
  m : Nat
  p : String
deriving DecidableEq, Repr

/-- Try the pattern digits, colon, digits, whitespace, meridiem at the head of
the character list; ci selects the case-insensitive variant of the final
alternation, exactly as the two regexes of ranker.py differ. -/
def matchTimeAt (ci : Bool) (cs : List Char) : Option TimeMatch :=
  let (d1, r1) := takeDigits cs
  if d1.isEmpty then none else
  match r1 with
  | ':' :: r2 =>
    let (d2, r3) := takeDigits r2
    if d2.isEmpty then none else
    let (sp, r4) := takeSpaces r3
    if sp.isEmpty then none else
    let mer := String.mk (r4.take 2)
    let hit := if ci then strLower mer = "am" ∨ strLower mer = "pm"
               else mer = "AM" ∨ mer = "PM"
    if hit then some ⟨digitsVal d1, digitsVal d2, mer⟩ else none
  | _ => none

/-- re.search for the time pattern: the leftmost position where it matches. -/
def searchTime (ci : Bool) : List Char → Option TimeMatch
  | [] => none
  | c :: rest =>
    match matchTimeAt ci (c :: rest) with
    | some tm => some tm
    | none => searchTime ci rest

/-- convert_et_to_ist of ranker.py. The pytz localize/astimezone/strftime call
chain is the external timezone database, passed in as tzConv taking the game
date and the 24-hour clock time; none models the strptime failure caught by
the enclosing try. -/
def convert_et_to_ist (tzConv : String → Nat → Nat → Option String)
    (time_str game_date_str : String) : String :=
  if time_str = "" ∨ strContains time_str "Final" then time_str else
  match searchTime true time_str.data with
  | none => time_str
  | some tm =>
    let h := if strLower tm.p = "pm" ∧ tm.h ≠ 12 then tm.h + 12 else tm.h
    let h2 := if strLower tm.p = "am" ∧ tm.h = 12 then 0 else h
    match tzConv game_date_str h2 tm.m with
    | some s => s
    | none => time_str

/-- The record appended to enriched_games for one game (ranker.py main loop). -/
structure GameRecord where
  time_ist : String
  sort_hour : ℚ
  matchup : String
  spread : ℚ
  stars : ℤ
  score : ℚ
  tv : String
  home_logo : String
  away_logo : String
  source : String
deriving DecidableEq, Repr

/-- The keys of that record dict, in construction order. -/
def enrichedKeys : List String :=
  ["Time_IST", "Sort_Hour", "Matchup", "Spread", "Stars", "Score", "TV",
   "Home_Logo", "Away_Logo", "Source"]

/-- TEAM_LOGOS_URL.format applied to a team id. -/
def logoUrl (teamId : Nat) : String :=
  "https://cdn.nba.com/logos/nba/" ++ toString teamId ++ "/primary/L/logo.svg"

/-- The availability filter inside get_stars: rostered players whose name is
not in the injured set, by exact string equality. -/
def availPlayers (roster : List Player) (injured : List String) : List Player :=
  roster.filter (fun p => ¬ injured.contains p.name)

/-- The avail list of get_stars: fantasy points of the available players. -/
def availFps (roster : List Player) (injured : List String) : List ℚ :=
  (availPlayers roster injured).map Player.fp

/-- The positional weights of get_stars. -/
def weights3 : List ℚ := [3/2, 1, 1/2]

/-- The weighted loop of get_stars over the first three available players. -/
def weightedTop3 (avail : List ℚ) : ℚ :=
  ((avail.take 3).zip weights3).foldl (fun s fw => s + fw.1 * fw.2) 0

/-- get_stars of the main loop: 150.0 for a team absent from the roster map,
else the weighted top-three sum of its available players. -/
def get_stars (rosters : Rosters) (injured : List String) (team : String) : ℚ :=
  match pyGet rosters team with
  | none => 150
  | some roster => weightedTop3 (availFps roster injured)

/-- The projection of a stored TeamStats record that the scoring loop reads,
or the inline default of the main loop; the inline default dict carries no
pace key, and pace is never read on either path. -/
structure HInfo where
  net : ℚ
  wins : ℚ
  ortg : ℚ
deriving DecidableEq, Repr

/-- team_stats.get(team, the inline net, wins, ortg default). -/
def hinfoOf (team_stats : List (String × TeamInfo)) (team : String) : HInfo :=
  match pyGet team_stats team with
  | some t => ⟨t.net, t.wins, t.ortg⟩
  | none => ⟨0, 1/2, 115⟩

/-- The body of the main loop of get_schedule_with_stats for one game row. -/
def enrichGame (rosters : Rosters) (team_stats : List (String × TeamInfo))
    (injured : List String) (spreads : List (String × ℚ))
    (tzConv : String → Nat → Nat → Option String) (target_date_str : String)
    (row : GameRow) : GameRecord :=
  let h_stars := get_stars rosters injured row.home
  let a_stars := get_stars rosters injured row.away
  let star_score := (h_stars + a_stars) / 6
  let h_info := hinfoOf team_stats row.home
  let a_info := hinfoOf team_stats row.away
  let quality_score := (h_info.net + a_info.net) * (3/2)
  let narrative_bonus : ℚ :=
    if h_info.wins > 3/5 ∧ a_info.wins > 3/5 then 10
    else if h_info.wins > 1/2 ∧ a_info.wins > 1/2 then 5
    else 0
  let avg_off := (h_info.ortg + a_info.ortg) / 2
  let style_bonus := max 0 ((avg_off - 112) * (4/5))
  let tv_bonus : ℚ := if row.tv ∈ ["ESPN", "TNT", "ABC", "NBATV"] then 5 else 0
  let spread := (pyGet spreads row.home).getD 10
  let spread_penalty := min (|spread| * (5/2)) 45
  let raw_score := 30 + star_score + quality_score + narrative_bonus +
    style_bonus + tv_bonus - spread_penalty
  let final_score := max 0 (min 100 raw_score)
  let ist_str := convert_et_to_ist tzConv row.time target_date_str
  let sort_hour : ℚ :=
    match searchTime false ist_str.data with
    | some tm =>
      let h := if tm.p = "PM" ∧ tm.h ≠ 12 then tm.h + 12 else tm.h
      let h2 := if tm.p = "AM" ∧ tm.h = 12 then 0 else h
      (h2 : ℚ) + (tm.m : ℚ) / 60
    | none => 0
  let source := if rosters.isEmpty then "Static Fallback" else "Manual CSV"
  ⟨ist_str, sort_hour, row.away ++ " @ " ++ row.home, spread,
   pyInt (h_stars + a_stars), pyRound1 final_score, row.tv,
   logoUrl row.home_id, logoUrl row.away_id, source⟩

/-- Everything outside the engine that get_schedule_with_stats consumes: the
outcome of the external effect behind each adapter, the import guard state, the API
key, and the timezone database. -/
structure WorldInputs where
  sched : Outcome (List GameDateEntry)
  dateFmt : Option String
  statsCsv : Option StatTable
  teamCsv : Option TeamTable
  injuryHtml : Option (List InjTable)
  oddsImported : Bool
  apiKey : String
  oddsFetch : Outcome (List OddsGame)
  tzConv : String → Nat → Nat → Option String

/-- get_schedule_with_stats of ranker.py: the orchestrator. An empty schedule
returns the empty frame at once; the three file loaders cannot raise; the odds
call can, and nothing in the orchestrator catches it. -/
def get_schedule_with_stats (w : WorldInputs) (target_date_str : String) :
    Except PyError (List GameRecord) :=
  let games := get_schedule_from_cdn w.sched w.dateFmt
  if games.isEmpty then .ok [] else
  let rosters := load_players w.statsCsv
  let team_stats := load_team_stats w.teamCsv
  let injured := load_injuries w.injuryHtml
  match ranker_spreads w.oddsImported w.apiKey w.oddsFetch with
  | .error e => .error e
  | .ok spreads =>
    .ok (games.map (enrichGame rosters team_stats injured spreads w.tzConv target_date_str))

/-! Concrete inputs used by witnesses and counterexamples. -/

/-- A schedule game: Boston at the Lakers, prime time, no national TV. -/
def rawGameC : RawGame := ⟨"LAL", "BOS", 1610612747, 1610612738, some "7:00 pm ET", []⟩

/-- A one-date schedule payload containing that game. -/
def schedC : List GameDateEntry := [⟨"01/15/2025 00:00:00", [rawGameC]⟩]

/-- A timezone database that fails every conversion, so display strings pass
through unchanged. -/
def tzNone : String → Nat → Nat → Option String := fun _ _ _ => none

/-- The game row the schedule adapter builds from that payload. -/
def rowC : GameRow := ⟨"LAL", "BOS", 1610612747, 1610612738, "7:00 pm ET", ""⟩

/-- A world where every file and the odds import are absent: every adapter
degrades to its empty or default result. -/
def wEmpty : WorldInputs :=
  ⟨.resp 200 (some schedC), some "01/15/2025", none, none, none, false, "", .timeout, tzNone⟩

/-- The same world but with the odds module imported, a real-looking key, and
a request that times out. -/
def wOddsTimeout : WorldInputs :=
  ⟨.resp 200 (some schedC), some "01/15/2025", none, none, none, true, "realkey", .timeout, tzNone⟩

/-- The record the orchestrator emits for the wEmpty world. -/
def recEmpty : GameRecord :=
  enrichGame (load_players none) (load_team_stats none) (load_injuries none) []
    tzNone "2025-01-15" rowC

/-! Arithmetic lemmas about the Python rounding helpers. -/

lemma pyRoundInt_nonneg {q : ℚ} (h : 0 ≤ q) : 0 ≤ pyRoundInt q := by
  have hf : (0 : ℤ) ≤ ⌊q⌋ := Int.floor_nonneg.mpr h
  simp only [pyRoundInt]
  split
  · exact hf
  · split
    · omega
    · split <;> omega

lemma pyRoundInt_le_of_le {q : ℚ} {B : ℤ} (h : q ≤ B) : pyRoundInt q ≤ B := by
  have hfB : ⌊q⌋ ≤ B := by
    have := Int.floor_mono h
    rwa [Int.floor_intCast] at this
  simp only [pyRoundInt]
  by_cases h1 : q - ⌊q⌋ < 1/2
  · rw [if_pos h1]; exact hfB
  · rw [if_neg h1]
    have hq : (⌊q⌋ : ℚ) + 1/2 ≤ q := by
      have := not_lt.mp h1
      linarith
    have hBq : (⌊q⌋ : ℚ) < (B : ℚ) := by
      have hqB : q ≤ (B : ℚ) := h
      linarith
    have hBi : ⌊q⌋ < B := by exact_mod_cast hBq
    split
    · omega
    · split <;> omega

lemma pyRound1_nonneg {q : ℚ} (h : 0 ≤ q) : 0 ≤ pyRound1 q := by
  have h10 : (0 : ℚ) ≤ 10 * q := by linarith
  have A := pyRoundInt_nonneg h10
  have : (0 : ℚ) ≤ (pyRoundInt (10 * q) : ℚ) := by exact_mod_cast A
  simp only [pyRound1]
  positivity

lemma pyRound1_le_100 {q : ℚ} (h : q ≤ 100) : pyRound1 q ≤ 100 := by
  have h10 : 10 * q ≤ ((1000 : ℤ) : ℚ) := by push_cast; linarith
  have A := pyRoundInt_le_of_le h10
  have hc : (pyRoundInt (10 * q) : ℚ) ≤ 1000 := by exact_mod_cast A
  simp only [pyRound1]
  linarith

/-! Lemmas on dictionaries whose stored values are all one constant. -/

lemma pyGet_const_val {β : Type} {c : β} {l : List (String × β)}
    (hall : ∀ kv ∈ l, kv.2 = c) (k : String) :
    pyGet l k = none ∨ pyGet l k = some c := by
  induction l with
  | nil => exact Or.inl rfl
  | cons kv rest ih =>
    simp only [pyGet]
    by_cases hk : kv.1 = k
    · simp only [hk, if_true]
      exact Or.inr (by rw [hall kv (by simp)])
    · simp only [hk, if_false]
      exact ih (fun x hx => hall x (by simp [hx]))

/-- Looking any team up in the all-defaults team stats gives the
league-average projection the scoring loop reads. -/
lemma hinfoOf_defaults (team : String) :
    hinfoOf (load_team_stats none) team = ⟨0, 1/2, 115⟩ := by
  have hall : ∀ kv ∈ load_team_stats none, kv.2 = (⟨100, 0, 115, 1/2⟩ : TeamInfo) := by
    intro kv hkv
    simp only [load_team_stats, team_defaults, List.mem_map] at hkv
    obtain ⟨x, -, rfl⟩ := hkv
    rfl
  rcases pyGet_const_val hall team with h | h <;> simp [hinfoOf, h]

/-- Every record the orchestrator returns comes from enrichGame on a row of
the fetched schedule, with the four loaded inputs. -/
lemma output_record_from_enrich {w : WorldInputs} {d : String}
    {recs : List GameRecord} {rec : GameRecord}
    (hok : get_schedule_with_stats w d = .ok recs) (hmem : rec ∈ recs) :
    ∃ row ∈ get_schedule_from_cdn w.sched w.dateFmt,
      ∃ spreads, ranker_spreads w.oddsImported w.apiKey w.oddsFetch = .ok spreads ∧
        rec = enrichGame (load_players w.statsCsv) (load_team_stats w.teamCsv)
          (load_injuries w.injuryHtml) spreads w.tzConv d row := by
  unfold get_schedule_with_stats at hok
  by_cases hg : (get_schedule_from_cdn w.sched w.dateFmt).isEmpty
  · rw [if_pos hg] at hok
    obtain rfl : ([] : List GameRecord) = recs := by simpa using hok
    simp at hmem
  · rw [if_neg hg] at hok
    cases hsp : ranker_spreads w.oddsImported w.apiKey w.oddsFetch with
    | error e => rw [hsp] at hok; simp at hok
    | ok spreads =>
      rw [hsp] at hok
      obtain rfl : _ = recs := by simpa using hok
      obtain ⟨row, hrow, hrec⟩ := List.mem_map.mp hmem
      exact ⟨row, hrow, spreads, rfl, hrec.symm⟩

/-- C1. For every GameRecord produced by get_schedule_with_stats, the final
score lies between 0 and 100 inclusive, for every combination of component
inputs however extreme. -/
theorem score_within_clamp_bounds (w : WorldInputs) (d : String)
    (recs : List GameRecord) (rec : GameRecord)
    (hok : get_schedule_with_stats w d = .ok recs) (hmem : rec ∈ recs) :
    0 ≤ rec.score ∧ rec.score ≤ 100 := by
  obtain ⟨row, -, spreads, -, rfl⟩ := output_record_from_enrich hok hmem
  refine ⟨pyRound1_nonneg (le_max_left _ _),
    pyRound1_le_100 (max_le (by norm_num) (min_le_left _ _))⟩

/-- C1 witness: the bounds hold for the concrete all-defaults world. -/
theorem score_within_clamp_bounds_witness :
    0 ≤ recEmpty.score ∧ recEmpty.score ≤ 100 :=
  score_within_clamp_bounds wEmpty "2025-01-15" [recEmpty] recEmpty rfl
    (List.mem_singleton.mpr rfl)

/-- Whether an orchestration run completed without a raised exception. -/
def exceptIsOk : Except PyError (List GameRecord) → Bool
  | .ok _ => true
  | .error _ => false

/-- C2 counterexample: with a scheduled game, the odds module imported, a real
key, and a timed-out odds request, the exception escapes
get_schedule_with_stats to its caller instead of degrading to a default. -/
theorem odds_timeout_reaches_caller :
    exceptIsOk (get_schedule_with_stats wOddsTimeout "2025-01-15") = false := rfl

/-- C2 amended. The placeholder key and a non-200 status degrade the odds
adapter to the empty dict, but a raised request (timeout) or an unparseable
payload raises past the adapter, and the orchestrator propagates exactly the
odds error; when the odds call returns, the run continues to completion. -/
theorem odds_adapter_error_behavior (key : String) (status : Nat)
    (body : Option (List OddsGame)) (fetch : Outcome (List OddsGame))
    (w : WorldInputs) (d : String) (e : PyError) (s : List (String × ℚ)) :
    (strContains key "PASTE_YOUR" = true → get_betting_spreads key fetch = .ok [])
  ∧ (status ≠ 200 → get_betting_spreads key (.resp status body) = .ok [])
  ∧ (strContains key "PASTE_YOUR" = false →
      get_betting_spreads key .timeout = .error .requestsError)
  ∧ (strContains key "PASTE_YOUR" = false →
      get_betting_spreads key (.resp 200 none) = .error .jsonDecodeError)
  ∧ (ranker_spreads false key fetch = .ok [])
  ∧ (ranker_spreads w.oddsImported w.apiKey w.oddsFetch = .error e →
      get_schedule_from_cdn w.sched w.dateFmt ≠ [] →
      get_schedule_with_stats w d = .error e)
  ∧ (ranker_spreads w.oddsImported w.apiKey w.oddsFetch = .ok s →
      get_schedule_with_stats w d = .ok
        ((get_schedule_from_cdn w.sched w.dateFmt).map
          (enrichGame (load_players w.statsCsv) (load_team_stats w.teamCsv)
            (load_injuries w.injuryHtml) s w.tzConv d))) := by
  refine ⟨?_, ?_, ?_, ?_, ?_, ?_, ?_⟩
  · intro hk
    cases fetch <;> simp [get_betting_spreads, hk]
  · intro hs
    by_cases hk : strContains key "PASTE_YOUR" <;>
      simp [get_betting_spreads, hk, hs]
  · intro hk
    simp [get_betting_spreads, hk]
  · intro hk
    simp [get_betting_spreads, hk]
  · simp [ranker_spreads]
  · intro he hne
    unfold get_schedule_with_stats
    rw [if_neg (by simp [List.isEmpty_iff, hne]), he]
  · intro hok
    unfold get_schedule_with_stats
    by_cases hg : (get_schedule_from_cdn w.sched w.dateFmt).isEmpty
    · rw [if_pos hg]
      rw [List.isEmpty_iff] at hg
      simp [hg]
    · rw [if_neg hg, hok]

/-- C2 amended witness: on the concrete timed-out world the run ends with
exactly the error raised inside the odds adapter. -/
theorem odds_adapter_error_behavior_witness :
    get_schedule_with_stats wOddsTimeout "2025-01-15" = .error .requestsError :=
  (odds_adapter_error_behavior "realkey" 404 none .timeout wOddsTimeout
    "2025-01-15" .requestsError []).2.2.2.2.2.1 rfl (by decide)

/-- C3. The record dict built by the orchestrator there is no Pace key among
the keys it constructs, although the GameRecord data model and the dashboard
caller read one; the other ten documented fields are all present. -/
theorem pace_key_absent_from_records :
    "Pace" ∉ enrichedKeys ∧
      ∀ k ∈ ["Time_IST", "Sort_Hour", "Matchup", "Spread", "Stars", "Score",
        "TV", "Home_Logo", "Away_Logo", "Source"], k ∈ enrichedKeys := by
  decide

/-- C4 counterexample: a one-name availability signal, below any meaningful
minimum-signal threshold, already filters a rostered player, so the resolver
output is smaller than the roster. -/
theorem singleton_signal_filters_roster :
    (availFps [⟨"Alpha", 10⟩, ⟨"Beta", 5⟩] ["Alpha"]).length ≠ 2 := by decide

/-- C4 amended. The code applies no minimum-signal size threshold; it is the
empty injury signal that makes every rostered player count: with no signal the
avail list of get_stars has exactly the size of the roster. -/
theorem empty_signal_counts_full_roster (rosters : Rosters) (team : String)
    (roster : List Player) (h : pyGet rosters team = some roster) :
    (availFps roster []).length = roster.length ∧
      get_stars rosters [] team = weightedTop3 (availFps roster []) := by
  constructor
  · simp [availFps, availPlayers]
  · simp [get_stars, h]

/-- C4 amended witness: a two-player roster with the empty signal counts both
players into the star computation. -/
theorem empty_signal_counts_full_roster_witness :
    (availFps [⟨"Alpha", 10⟩, ⟨"Beta", 5⟩] []).length = 2 ∧
      get_stars [("BOS", [⟨"Alpha", 10⟩, ⟨"Beta", 5⟩])] [] "BOS" =
        weightedTop3 (availFps [⟨"Alpha", 10⟩, ⟨"Beta", 5⟩] []) :=
  empty_signal_counts_full_roster [("BOS", [⟨"Alpha", 10⟩, ⟨"Beta", 5⟩])] "BOS"
    [⟨"Alpha", 10⟩, ⟨"Beta", 5⟩] rfl

/-- C5 counterexample: the roster name with diacritics and the plain-ASCII
signal name do not resolve to the same player, so the claimed fuzzy match does
not happen; only the byte-identical name matches. -/
theorem diacritic_names_do_not_match :
    availFps [⟨"Luka Dončić", 50⟩] ["Luka Doncic"] = [50] ∧
      availFps [⟨"Luka Dončić", 50⟩] ["Luka Dončić"] = [] ∧
      availFps [⟨"Jalen Green", 30⟩] ["Jalen Johnson"] = [30] := by decide

/-- C5 amended. Availability matching is exact string equality only: a player
is filtered out precisely when the signal set holds their name verbatim, with
no similarity fallback of any kind. -/
theorem availability_match_is_exact (roster : List Player) (injured : List String)
    (p : Player) :
    p ∈ availPlayers roster injured ↔ p ∈ roster ∧ p.name ∉ injured := by
  simp [availPlayers]

/-- C6. The scoring loop reads the spread from the map keyed by the home
abbreviation of the home team, and falls back to 10.0 exactly when that abbreviation is
absent. -/
theorem spread_keyed_by_home_with_default (rosters : Rosters)
    (team_stats : List (String × TeamInfo)) (injured : List String)
    (spreads : List (String × ℚ)) (tzConv : String → Nat → Nat → Option String)
    (d : String) (row : GameRow) :
    (∀ v : ℚ, pyGet spreads row.home = some v →
      (enrichGame rosters team_stats injured spreads tzConv d row).spread = v)
  ∧ (pyGet spreads row.home = none →
      (enrichGame rosters team_stats injured spreads tzConv d row).spread = 10) := by
  constructor
  · intro v hv
    show (pyGet spreads row.home).getD 10 = v
    rw [hv]
    rfl
  · intro hv
    show (pyGet spreads row.home).getD 10 = 10
    rw [hv]
    rfl

/-- C6 witness: with a spread stored for the home side LAL, the emitted record
carries that value, not the default. -/
theorem spread_keyed_by_home_with_default_witness :
    (enrichGame [] (load_team_stats none) [] [("LAL", -11/2)] tzNone
      "2025-01-15" rowC).spread = -11/2 :=
  (spread_keyed_by_home_with_default [] (load_team_stats none) [] [("LAL", -11/2)]
    tzNone "2025-01-15" rowC).1 (-11/2) rfl

/-- C7. With every adapter at its empty or default result, the score is the
no-signal base state degraded only by the spread penalty: spread 0 yields the
fallback base 82.4 exactly, and spread 18 yields that base minus the capped
penalty 45. -/
theorem no_signal_score_degrades_by_spread_only (row : GameRow)
    (injured : List String) (tzConv : String → Nat → Nat → Option String)
    (d : String) (htv : row.tv ∉ ["ESPN", "TNT", "ABC", "NBATV"]) :
    (enrichGame [] (load_team_stats none) injured [(row.home, 0)] tzConv d row).score
        = 412/5
  ∧ (enrichGame [] (load_team_stats none) injured [(row.home, 18)] tzConv d row).score
        = 412/5 - 45 := by
  have hh := hinfoOf_defaults row.home
  have ha := hinfoOf_defaults row.away
  constructor <;>
  · simp only [enrichGame, get_stars, pyGet, hh, ha, htv]
    norm_num [pyRound1, pyRoundInt, max_def, min_def]

/-- C7 witness: the concrete Boston-at-Lakers row with no national TV and a
zero spread scores exactly the fallback base. -/
theorem no_signal_score_degrades_by_spread_only_witness :
    (enrichGame [] (load_team_stats none) [] [("LAL", 0)] tzNone
      "2025-01-15" rowC).score = 412/5 :=
  (no_signal_score_degrades_by_spread_only rowC [] tzNone "2025-01-15"
    (by decide)).1

/-- C8. The orchestrator is deterministic over frozen adapter outcomes: two
invocations with identical worlds and dates give identical record sequences,
in identical order. -/
theorem orchestrator_deterministic (w1 w2 : WorldInputs) (d1 d2 : String)
    (hw : w1 = w2) (hd : d1 = d2) :
    get_schedule_with_stats w1 d1 = get_schedule_with_stats w2 d2 := by
  rw [hw, hd]

/-- C8 witness: repeating the all-defaults run reproduces it. -/
theorem orchestrator_deterministic_witness :
    get_schedule_with_stats wEmpty "2025-01-15"
      = get_schedule_with_stats wEmpty "2025-01-15" :=
  orchestrator_deterministic wEmpty wEmpty "2025-01-15" "2025-01-15" rfl rfl

/-- Manual team-stats file content: two contending teams with positive net
rating, used to show the label ignores which tier fed the quality data. -/
def teamTableC : TeamTable :=
  ⟨true, [⟨"Boston Celtics", some 10, some 0, some 100, some 5, some 120⟩,
          ⟨"Los Angeles Lakers", some 10, some 0, some 100, some 5, some 120⟩]⟩

/-- C9 counterexample: when the manual team-stats file powers the score but no
roster file is present, the emitted label says Static Fallback even though a
manual-file tier supplied the data that visibly changed the score. -/
theorem label_static_despite_manual_team_stats :
    (enrichGame [] (load_team_stats (some teamTableC)) [] [] tzNone
        "2025-01-15" rowC).source = "Static Fallback"
  ∧ (enrichGame [] (load_team_stats (some teamTableC)) [] [] tzNone
        "2025-01-15" rowC).score
      ≠ (enrichGame [] (load_team_stats none) [] [] tzNone
        "2025-01-15" rowC).score := by
  refine ⟨rfl, ?_⟩
  have h1 : (enrichGame [] (load_team_stats (some teamTableC)) [] [] tzNone
      "2025-01-15" rowC).score = 432/5 := by
    simp [enrichGame, get_stars, hinfoOf, load_team_stats, teamTableC, team_defaults,
      TEAM_MAP, pyGet, dictSet, stripAsterisks, rowC]
    norm_num [pyRound1, pyRoundInt, max_def, min_def]
  have h2 : (enrichGame [] (load_team_stats none) [] [] tzNone
      "2025-01-15" rowC).score = 287/5 := by
    have hh := hinfoOf_defaults rowC.home
    have ha := hinfoOf_defaults rowC.away
    have htv : rowC.tv ∉ ["ESPN", "TNT", "ABC", "NBATV"] := by decide
    simp only [enrichGame, get_stars, pyGet, hh, ha, htv]
    norm_num [pyRound1, pyRoundInt, max_def, min_def]
  rw [h1, h2]
  norm_num

/-- C9 amended. The source label depends only on whether the roster map is
nonempty: Manual CSV when the manual roster file yielded players, otherwise
Static Fallback; no live tier label exists and no other adapter affects it. -/
theorem source_label_depends_only_on_rosters (w : WorldInputs) (d : String)
    (recs : List GameRecord) (rec : GameRecord)
    (hok : get_schedule_with_stats w d = .ok recs) (hmem : rec ∈ recs) :
    rec.source = if (load_players w.statsCsv).isEmpty then "Static Fallback"
      else "Manual CSV" := by
  obtain ⟨row, -, spreads, -, rfl⟩ := output_record_from_enrich hok hmem
  rfl

/-- Manual roster file content: one Boston player. -/
def statTableC : StatTable :=
  ⟨true, true, true, true,
    [⟨"Alpha Star", "BOS", "BOS", some 30, some 10, some 5, some 1, some 1, some 2⟩]⟩

/-- A world whose only live source is the schedule and whose roster comes from
the manual file. -/
def wManual : WorldInputs :=
  ⟨.resp 200 (some schedC), some "01/15/2025", some statTableC, none, none,
    false, "", .timeout, tzNone⟩

/-- The record the orchestrator emits for the manual-roster world. -/
def recManual : GameRecord :=
  enrichGame (load_players (some statTableC)) (load_team_stats none)
    (load_injuries none) [] tzNone "2025-01-15" rowC

/-- C9 amended witness: the manual-roster world is labelled Manual CSV. -/
theorem source_label_depends_only_on_rosters_witness :
    recManual.source = "Manual CSV" :=
  (source_label_depends_only_on_rosters wManual "2025-01-15" [recManual] recManual
    rfl (List.mem_singleton.mpr rfl)).trans rfl

/-- C10. When exactly one side is absent from the roster map, the star value
of that side is the constant 150.0, the present side contributes the weighted top-three sum
of its available players, and the emitted star index is the Python int of
150.0 plus that weighted sum. -/
theorem one_sided_roster_fallback_stars (rosters : Rosters)
    (team_stats : List (String × TeamInfo)) (injured : List String)
    (spreads : List (String × ℚ)) (tzConv : String → Nat → Nat → Option String)
    (d : String) (row : GameRow) (roster : List Player) :
    (pyGet rosters row.home = none → pyGet rosters row.away = some roster →
      get_stars rosters injured row.home = 150 ∧
      get_stars rosters injured row.away = weightedTop3 (availFps roster injured) ∧
      (enrichGame rosters team_stats injured spreads tzConv d row).stars
        = pyInt (150 + weightedTop3 (availFps roster injured)))
  ∧ (pyGet rosters row.away = none → pyGet rosters row.home = some roster →
      (enrichGame rosters team_stats injured spreads tzConv d row).stars
        = pyInt (150 + weightedTop3 (availFps roster injured))) := by
  constructor
  · intro hh ha
    have e1 : get_stars rosters injured row.home = 150 := by simp [get_stars, hh]
    have e2 : get_stars rosters injured row.away
        = weightedTop3 (availFps roster injured) := by simp [get_stars, ha]
    refine ⟨e1, e2, ?_⟩
    show pyInt (get_stars rosters injured row.home +
      get_stars rosters injured row.away) = _
    rw [e1, e2]
  · intro ha hh
    have e1 : get_stars rosters injured row.home
        = weightedTop3 (availFps roster injured) := by simp [get_stars, hh]
    have e2 : get_stars rosters injured row.away = 150 := by simp [get_stars, ha]
    show pyInt (get_stars rosters injured row.home +
      get_stars rosters injured row.away) = _
    rw [e1, e2, add_comm]

/-- A four-player roster for the side present in the roster map. -/
def rosterW : List Player := [⟨"A One", 40⟩, ⟨"B Two", 30⟩, ⟨"C Three", 20⟩, ⟨"D Four", 10⟩]

/-- C10 witness: away Boston rostered, home Lakers absent, so the star index
is int of 150 plus the weighted top three of Boston. -/
theorem one_sided_roster_fallback_stars_witness :
    (enrichGame [("BOS", rosterW)] (load_team_stats none) [] [] tzNone
      "2025-01-15" rowC).stars = pyInt (150 + weightedTop3 (availFps rosterW [])) :=
  ((one_sided_roster_fallback_stars [("BOS", rosterW)] (load_team_stats none) [] []
    tzNone "2025-01-15" rowC rosterW).1 rfl rfl).2.2

end LeaguePass
